import Mathlib

/-!
Verification of the WattsUp area-safety-scoring engine and route categorizer
(src/safety_analyzer.py and src/route_analyzer.py), as a shallow embedding:
numeric values are exact rationals, timestamps are integers (days for incident
creation dates, rational seconds for the cache clock), pandas DataFrames are
lists of records, and the external collaborators (incident API, geocoder,
haversine evaluation) are explicit parameters.
-/

namespace WattsUp

/-- Rounding to a fixed number of decimal places, modelling the calls
round(x, 2) and round(x, 3) in safety_analyzer.py.  Mathlib round is
round-half-up while Python rounds half to even; the two agree except at exact
ties, which none of the verified properties depend on. -/
def roundTo (n : ℕ) (x : ℚ) : ℚ := (round (x * 10 ^ n) : ℤ) / 10 ^ n

/-- Incident-type strings of the HIGH_CONCERN tier
(safety_analyzer.py lines 70-85). -/
def highConcernTypes : List String :=
  ["Drug Activity", "Non-Emergency Police Matter", "Criminal Mischief",
   "Harassment", "Assault", "Robbery", "Burglary", "Theft", "Vandalism",
   "Weapon"]

/-- Incident-type strings of the MEDIUM_CONCERN tier (lines 86-98). -/
def mediumConcernTypes : List String :=
  ["Panhandling", "Homeless Person Assistance", "Abandoned Vehicle",
   "Illegal Fireworks", "Illegal Dumping", "Public Urination",
   "Disorderly Conduct"]

/-- Incident-type strings of the LOW_CONCERN tier (lines 99-116). -/
def lowConcernTypes : List String :=
  ["Noise - Residential", "Noise - Street/Sidewalk", "Noise - Commercial",
   "Noise - Vehicle", "Noise - Helicopter", "Noise - Park", "Noise",
   "Illegal Parking", "Blocked Driveway", "Traffic",
   "For Hire Vehicle Complaint", "Taxi Complaint"]

/-- Incident-type strings of the INFRASTRUCTURE tier (lines 117-135). -/
def infrastructureTypes : List String :=
  ["Street Condition", "Sidewalk Condition", "Traffic Signal Condition",
   "Street Light Condition", "Street Sign - Damaged", "Damaged Tree",
   "Water System", "Sewer", "Standing Water", "Dirty Condition", "Rodent",
   "Maintenance or Facility", "Residential Disposal Complaint"]

/-- One severity tier of the safety-category table. -/
structure SafetyCategory where
  name : String
  weight : ℚ
  types : List String
deriving DecidableEq

/-- The category table returned by SafetyAnalyzer._define_safety_categories,
in Python dict insertion order (HIGH_CONCERN first). -/
def safetyCategories : List SafetyCategory :=
  [⟨"HIGH_CONCERN", 3, highConcernTypes⟩,
   ⟨"MEDIUM_CONCERN", 2, mediumConcernTypes⟩,
   ⟨"LOW_CONCERN", 1, lowConcernTypes⟩,
   ⟨"INFRASTRUCTURE", 1/2, infrastructureTypes⟩]

/-- SafetyAnalyzer._categorize_complaint (lines 329-339): none models a
missing value (pd.isna); otherwise the dict iteration performs an exact,
case-sensitive membership test per category in insertion order, first match
wins, and an unmatched input falls through to INFRASTRUCTURE. -/
def categorizeComplaint (complaintType : Option String) : String :=
  match complaintType with
  | none => "INFRASTRUCTURE"
  | some ct =>
    match safetyCategories.find? (fun c => decide (ct ∈ c.types)) with
    | some c => c.name
    | none => "INFRASTRUCTURE"

/-- Weight lookup used by _clean_data line 326: the weight of the named
category, defaulting to 0.5 when the name is not in the table. -/
def safetyWeightOf (cat : String) : ℚ :=
  match safetyCategories.find? (fun c => decide (c.name = cat)) with
  | some c => c.weight
  | none => 1/2

/-- One raw incident report as fetched from the API, after the parsing that
_clean_data performs field by field: creation date in whole days, coordinates
already coerced to numeric with invalid values absent. -/
structure RawIncident where
  complaint_type : Option String
  created_date : ℤ
  incident_zip : String
  borough : String
  latitude : Option ℚ
  longitude : Option ℚ
deriving DecidableEq

/-- One row of the processed crime-data frame, with the derived
safety_category and safety_weight columns. -/
structure IncidentRecord where
  complaint_type : Option String
  created_date : ℤ
  incident_zip : String
  borough : String
  latitude : Option ℚ
  longitude : Option ℚ
  safety_category : String
  safety_weight : ℚ
deriving DecidableEq

/-- The categorization step of SafetyAnalyzer._clean_data (lines 323-327):
derive safety_category via _categorize_complaint and safety_weight via the
category-table lookup with default 0.5. -/
def cleanRecord (raw : RawIncident) : IncidentRecord :=
  let cat := categorizeComplaint raw.complaint_type
  { complaint_type := raw.complaint_type
    created_date := raw.created_date
    incident_zip := raw.incident_zip
    borough := raw.borough
    latitude := raw.latitude
    longitude := raw.longitude
    safety_category := cat
    safety_weight := safetyWeightOf cat }

/-- The safety_metrics dict produced by _calculate_safety_metrics.  The
category distribution keeps (category, fraction) pairs; the source sorts them
by frequency, which no verified property depends on. -/
structure SafetyMetrics where
  total_complaints : ℕ
  weighted_safety_score : ℚ
  complaints_per_day : ℚ
  high_concern_ratio : ℚ
  category_distribution : List (String × ℚ)
deriving DecidableEq

/-- SafetyAnalyzer._calculate_safety_metrics (lines 417-456).  The empty
subset returns the optimistic defaults; otherwise the weighted mean of
safety_weight is rescaled to a 1-to-5 "safer is higher" base score, the date
range in days (with 0 replaced by 1, modelling the "or 1" and the max with 1)
divides the complaint count, and the HIGH_CONCERN fraction is computed. -/
def calculateSafetyMetrics (areaData : List IncidentRecord) : SafetyMetrics :=
  let n := areaData.length
  if n = 0 then
    { total_complaints := 0, weighted_safety_score := 5, complaints_per_day := 0,
      high_concern_ratio := 0, category_distribution := [] }
  else
    let weightedScore := (areaData.map (fun r => r.safety_weight)).sum / n
    let safetyScore := max 1 (5 - weightedScore * (3/2))
    let dates := areaData.map (fun r => r.created_date)
    let dmax := dates.foldl max (dates.headD 0)
    let dmin := dates.foldl min (dates.headD 0)
    let dateRange : ℤ := if dmax - dmin = 0 then 1 else dmax - dmin
    let complaintsPerDay := (n : ℚ) / ((max dateRange 1 : ℤ) : ℚ)
    let highConcernCount :=
      (areaData.filter (fun r => decide (r.safety_category = "HIGH_CONCERN"))).length
    let highConcernRatio := (highConcernCount : ℚ) / n
    let cats := (areaData.map (fun r => r.safety_category)).dedup
    { total_complaints := n
      weighted_safety_score := roundTo 2 safetyScore
      complaints_per_day := roundTo 3 complaintsPerDay
      high_concern_ratio := roundTo 3 highConcernRatio
      category_distribution := cats.map (fun c =>
        (c, ((areaData.filter (fun r => decide (r.safety_category = c))).length : ℚ) / n)) }

/-- The safety_rating dict: score (rounded to 2 decimals), letter grade,
description and UI color. -/
structure SafetyRating where
  score : ℚ
  grade : String
  description : String
  color : String
deriving DecidableEq

/-- The score adjustments of _generate_safety_rating (lines 464-474): subtract
1.0 when the high-concern ratio exceeds 0.2 (else 0.5 when it exceeds 0.1),
then 0.5 when complaints per day exceed 2.0 (else 0.25 when they exceed 1.0). -/
def adjustedScore (metrics : SafetyMetrics) : ℚ :=
  let score1 :=
    if metrics.high_concern_ratio > 1/5 then metrics.weighted_safety_score - 1
    else if metrics.high_concern_ratio > 1/10 then metrics.weighted_safety_score - 1/2
    else metrics.weighted_safety_score
  if metrics.complaints_per_day > 2 then score1 - 1/2
  else if metrics.complaints_per_day > 1 then score1 - 1/4
  else score1

/-- The clamp of line 477: score = max(1.0, min(5.0, score)). -/
def clampedScore (metrics : SafetyMetrics) : ℚ :=
  max 1 (min 5 (adjustedScore metrics))

/-- The letter-grade threshold mapping shared by the spec (section 3), the
grade branch of _generate_safety_rating, and RouteAnalyzer._score_to_grade. -/
def scoreToGrade (score : ℚ) : String :=
  if 9/2 ≤ score then "A"
  else if 7/2 ≤ score then "B"
  else if 5/2 ≤ score then "C"
  else if 3/2 ≤ score then "D"
  else "F"

/-- SafetyAnalyzer._generate_safety_rating (lines 458-506). -/
def generateSafetyRating (metrics : SafetyMetrics) : SafetyRating :=
  let score := clampedScore metrics
  { score := roundTo 2 score
    grade :=
      if 9/2 ≤ score then "A"
      else if 7/2 ≤ score then "B"
      else if 5/2 ≤ score then "C"
      else if 3/2 ≤ score then "D"
      else "F"
    description :=
      if 9/2 ≤ score then "Very Safe"
      else if 7/2 ≤ score then "Generally Safe"
      else if 5/2 ≤ score then "Moderately Safe"
      else if 3/2 ≤ score then "Some Safety Concerns"
      else "Significant Safety Concerns"
    color :=
      if 9/2 ≤ score then "green"
      else if 7/2 ≤ score then "lightgreen"
      else if 5/2 ≤ score then "yellow"
      else if 3/2 ≤ score then "orange"
      else "red" }

/-- The mutable attributes of SafetyAnalyzer touched by the cache and load
logic: crime_data, data_cache, cache_timestamp (rational seconds, as
time.time), and cached_borough (getattr default None when never set). -/
structure StoreState where
  crime_data : Option (List IncidentRecord)
  data_cache : Option (List IncidentRecord)
  cache_timestamp : Option ℚ
  cached_borough : Option String
deriving DecidableEq

/-- Cache TTL, self.cache_duration = 3600 seconds (1 hour). -/
def cacheDuration : ℚ := 3600

/-- SafetyAnalyzer._is_cache_valid (lines 176-190): the cache is valid only
when both payload and timestamp exist, the age is strictly below the TTL, and
the requested borough equals the cached borough exactly. -/
def isCacheValid (st : StoreState) (borough : Option String) (now : ℚ) : Bool :=
  match st.data_cache, st.cache_timestamp with
  | some _, some ts =>
    if now - ts ≥ cacheDuration then false
    else if borough ≠ st.cached_borough then false
    else true
  | _, _ => false

/-- Result of one load_data call: the returned boolean, the analyzer state
afterwards, and whether an API fetch was attempted. -/
structure LoadResult where
  success : Bool
  state : StoreState
  didFetch : Bool
deriving DecidableEq

/-- SafetyAnalyzer.load_data (lines 138-174), with the outcome of
_fetch_from_api passed in explicitly: _fetch_from_api catches every request
and processing exception internally and returns None in those cases (lines
252-257), so a network failure or timeout reaches load_data as the value
none.  On a valid cache the cached frame is reused without a fetch; a fetch
returning none, or an empty record list (the "if not raw_data" falsiness
test), makes load_data return False with the state unchanged; a non-empty
fetch is cleaned, cached under the requested borough, and returns True.
The except branch of load_data that builds the empty fallback dataset is
reachable only when cleaning or caching itself raises, which the pure model
cannot, and in particular not from a network failure. -/
def loadData (st : StoreState) (borough : Option String) (now : ℚ)
    (fetchResult : Option (List RawIncident)) : LoadResult :=
  if isCacheValid st borough now then
    { success := true, state := { st with crime_data := st.data_cache }, didFetch := false }
  else
    match fetchResult with
    | none => { success := false, state := st, didFetch := true }
    | some raw =>
      if raw.isEmpty then { success := false, state := st, didFetch := true }
      else
        let cleaned := raw.map cleanRecord
        { success := true
          state := { crime_data := some cleaned, data_cache := some cleaned,
                     cache_timestamp := some now, cached_borough := borough }
          didFetch := true }

/-- SafetyAnalyzer._filter_area_data (lines 391-415).  The geocoded argument
is the outcome of geocoding the address (none when no address was given, no
API key is configured, or geocoding failed); dist abstracts the pointwise
haversine evaluation _haversine_distance (lines 13-28), whose trig is
computed by an external numeric library.  In radius mode a record without
both coordinates never satisfies the comparison (NaN compares false in
pandas) and is dropped; otherwise the zip filter and then the
case-insensitive borough filter apply. -/
def filterAreaData (crimeData : List IncidentRecord)
    (zip : Option String) (borough : Option String)
    (geocoded : Option (ℚ × ℚ)) (dist : ℚ → ℚ → ℚ → ℚ → ℚ)
    (radiusMiles : ℚ) : List IncidentRecord :=
  match geocoded with
  | some (lat, lon) =>
    crimeData.filter (fun r =>
      match r.latitude, r.longitude with
      | some rlat, some rlon => decide (dist lat lon rlat rlon ≤ radiusMiles)
      | _, _ => false)
  | none =>
    let zipFiltered :=
      match zip with
      | some z => crimeData.filter (fun r => decide (r.incident_zip = z))
      | none => crimeData
    match borough with
    | some b => zipFiltered.filter (fun r => decide (r.borough.toUpper = b.toUpper))
    | none => zipFiltered

/-- The recent_activity dict of _get_recent_activity.  The source omits the
previous_period_complaints and days_analyzed keys in its empty-input branch;
the model reports 0 and the window there. -/
structure RecentActivity where
  recent_complaints : ℕ
  previous_period_complaints : ℕ
  trend : String
  days_analyzed : ℤ
deriving DecidableEq

/-- SafetyAnalyzer._get_recent_activity (lines 564-597): count incidents
created on or after now - days (recent) and in the window of the same length
before that (previous), then label the trend, with previous_count == 0
forcing stable. -/
def getRecentActivity (areaData : List IncidentRecord) (now : ℤ)
    (days : ℤ) : RecentActivity :=
  if areaData.isEmpty then
    { recent_complaints := 0, previous_period_complaints := 0,
      trend := "stable", days_analyzed := days }
  else
    let cutoff := now - days
    let prevCutoff := cutoff - days
    let recentCount := (areaData.filter (fun r => decide (cutoff ≤ r.created_date))).length
    let prevCount := (areaData.filter (fun r =>
      decide (prevCutoff ≤ r.created_date ∧ r.created_date < cutoff))).length
    let trend :=
      if prevCount = 0 then "stable"
      else if (recentCount : ℚ) > (prevCount : ℚ) * (6/5) then "increasing"
      else if (recentCount : ℚ) < (prevCount : ℚ) * (4/5) then "decreasing"
      else "stable"
    { recent_complaints := recentCount, previous_period_complaints := prevCount,
      trend := trend, days_analyzed := days }

/-- The fields of the area-rating response dict that the verified properties
concern: the data_points entry of area_info, the safety_rating, the
safety_metrics, and the safety_summary message.  The remaining keys
(complaint_breakdown, recent_activity, recommendations) are string or
presentation material reproduced from the same metrics. -/
structure AreaSafetyResponse where
  data_points : ℕ
  safety_rating : SafetyRating
  safety_metrics : SafetyMetrics
  safety_summary : String
deriving DecidableEq

/-- SafetyAnalyzer._create_default_rating (lines 628-653): the fixed
Insufficient Data response with score 3.0 and grade C. -/
def createDefaultRating (message : String) : AreaSafetyResponse :=
  { data_points := 0
    safety_rating :=
      { score := 3, grade := "C", description := "Insufficient Data", color := "gray" }
    safety_metrics :=
      { total_complaints := 0, weighted_safety_score := 3, complaints_per_day := 0,
        high_concern_ratio := 0, category_distribution := [] }
    safety_summary := message }

/-- SafetyAnalyzer._create_fallback_rating (lines 679-740), projected to the
modelled fields.  The source dict carries a differently keyed metrics block
whose total_complaints is 0 and no color entry; the model uses the empty
string for the absent color and zeroed metrics. -/
def createFallbackRating (borough : Option String) : AreaSafetyResponse :=
  let ratingInfo : ℚ × String × String :=
    match borough with
    | some "Manhattan" =>
      (19/5, "B+", "Generally safe with heavy foot traffic and police presence")
    | some "Brooklyn" => (7/2, "B", "Safety varies by neighborhood, generally improving")
    | some "Queens" => (18/5, "B", "Diverse borough with generally good safety record")
    | some "Bronx" => (16/5, "B-", "Improving safety conditions, varies by area")
    | some "Staten Island" => (4, "A-", "Generally the safest NYC borough")
    | _ => (7/2, "B", "General NYC area safety rating")
  { data_points := 0
    safety_rating :=
      { score := ratingInfo.1, grade := ratingInfo.2.1,
        description := ratingInfo.2.2, color := "" }
    safety_metrics :=
      { total_complaints := 0, weighted_safety_score := 0, complaints_per_day := 0,
        high_concern_ratio := 0, category_distribution := [] }
    safety_summary := "Basic safety information" }

/-- SafetyAnalyzer.get_area_safety_rating (lines 341-389), after the load
step, projected to the modelled response fields: filter the loaded frame,
return the borough fallback rating when the whole frame is empty (fallback
mode), the Insufficient Data default when only the filtered subset is empty,
and otherwise the computed metrics and rating. -/
def getAreaSafetyRating (crimeData : List IncidentRecord)
    (zip : Option String) (borough : Option String)
    (geocoded : Option (ℚ × ℚ)) (dist : ℚ → ℚ → ℚ → ℚ → ℚ)
    (radiusMiles : ℚ) : AreaSafetyResponse :=
  let areaData := filterAreaData crimeData zip borough geocoded dist radiusMiles
  if areaData.isEmpty then
    if crimeData.isEmpty then createFallbackRating borough
    else createDefaultRating "No crime data available for this area"
  else
    let metrics := calculateSafetyMetrics areaData
    { data_points := areaData.length
      safety_rating := generateSafetyRating metrics
      safety_metrics := metrics
      safety_summary := "" }

/-- One analyzed route candidate, projected to the fields the categorizer
reads: identity, distance-weighted safety score, total duration in seconds
(the value entry of the duration dict), and the route_type tag. -/
structure RouteCandidate where
  route_id : String
  overall_safety_score : ℚ
  total_duration : ℚ
  route_type : String
deriving DecidableEq

/-- Ordering used by sorted(key=overall_safety_score, reverse=True):
descending score, stable. -/
def safetyDesc (a b : RouteCandidate) : Prop :=
  b.overall_safety_score ≤ a.overall_safety_score

instance : DecidableRel safetyDesc :=
  fun a b => inferInstanceAs (Decidable (b.overall_safety_score ≤ a.overall_safety_score))

/-- Ordering used by sorted(key=total_duration value): ascending duration,
stable. -/
def durationAsc (a b : RouteCandidate) : Prop :=
  a.total_duration ≤ b.total_duration

instance : DecidableRel durationAsc :=
  fun a b => inferInstanceAs (Decidable (a.total_duration ≤ b.total_duration))

/-- RouteAnalyzer._categorize_and_sort_routes (route_analyzer.py lines
199-236): emit a copy of the top route by safety labelled safest; emit the
top route by duration labelled fastest only when its route_id differs from
the safest one; with at least 3 input routes, additionally emit the first
input route whose identity is neither, labelled balanced.  insertionSort is a
stable sort over a total preorder, hence agrees with the stable Python
sorted. -/
def categorizeAndSortRoutes (routes : List RouteCandidate) : List RouteCandidate :=
  match routes.insertionSort safetyDesc, routes.insertionSort durationAsc with
  | safest :: _, fastest :: _ =>
    let base := [{ safest with route_type := "safest" }]
    let withFast :=
      if fastest.route_id ≠ safest.route_id
      then base ++ [{ fastest with route_type := "fastest" }]
      else base
    if 3 ≤ routes.length then
      match routes.find? (fun r =>
        decide (r.route_id ≠ safest.route_id ∧ r.route_id ≠ fastest.route_id)) with
      | some b => withFast ++ [{ b with route_type := "balanced" }]
      | none => withFast
    else withFast
  | _, _ => []

/-- The Assault incident of the worked spec example (section 8). -/
def assaultRaw : RawIncident :=
  { complaint_type := some "Assault", created_date := 0, incident_zip := "10001",
    borough := "MANHATTAN", latitude := none, longitude := none }

/-- The Noise incident of the worked spec example (section 8). -/
def noiseRaw : RawIncident :=
  { complaint_type := some "Noise", created_date := 0, incident_zip := "10001",
    borough := "MANHATTAN", latitude := none, longitude := none }

/-- The two-incident subset of the worked spec example, after cleaning. -/
def pairData : List IncidentRecord := [cleanRecord assaultRaw, cleanRecord noiseRaw]

/-- Concrete metrics used to instantiate the rating-bounds theorem. -/
def metricsEx : SafetyMetrics :=
  { total_complaints := 10, weighted_safety_score := 4, complaints_per_day := 0,
    high_concern_ratio := 0, category_distribution := [] }

/-- The analyzer state right after construction: nothing loaded, nothing
cached. -/
def initState : StoreState :=
  { crime_data := none, data_cache := none, cache_timestamp := none,
    cached_borough := none }

/-- A state holding a fresh cache for BROOKLYN, used to instantiate the cache
theorems. -/
def stEx : StoreState :=
  { crime_data := none, data_cache := some pairData, cache_timestamp := some 100,
    cached_borough := some "BROOKLYN" }

/-- A constant stand-in for the pointwise haversine evaluation, used to
instantiate the geospatial theorems. -/
def distEx : ℚ → ℚ → ℚ → ℚ → ℚ := fun _ _ _ _ => 1

/-- A record carrying coordinates, used to instantiate the radius-filter
theorem. -/
def recEx : IncidentRecord :=
  { cleanRecord assaultRaw with latitude := some 1, longitude := some 2 }

/-- First route candidate of the concrete categorizer instance. -/
def rEx0 : RouteCandidate :=
  { route_id := "route_0", overall_safety_score := 4, total_duration := 1200,
    route_type := "analyzed" }

/-- Second route candidate of the concrete categorizer instance: faster but
less safe than the first. -/
def rEx1 : RouteCandidate :=
  { route_id := "route_1", overall_safety_score := 3, total_duration := 900,
    route_type := "analyzed" }

/-- A one-record crime-data frame used to instantiate the area-rating
boundary theorem. -/
def dataEx : List IncidentRecord := [cleanRecord assaultRaw]

/-- Rounding a value already expressible with the target number of decimal
places leaves it unchanged. -/
theorem roundTo_eq_self (n : ℕ) (x : ℚ) (j : ℤ) (h : x = (j : ℚ) / 10 ^ n) :
    roundTo n x = x := by
  subst h
  unfold roundTo
  rw [div_mul_cancel₀ _ (by positivity : ((10 : ℚ) ^ n) ≠ 0), round_intCast]

/-- Rounding an integer number of hundredths to two decimal places leaves it
unchanged. -/
theorem roundTo_two_cent (j : ℤ) : roundTo 2 ((j : ℚ) / 100) = (j : ℚ) / 100 :=
  roundTo_eq_self 2 _ j (by norm_num)

/-- Claim C1. The spec demands that a load whose upstream fetch fails (the
source times out or is unreachable) return True with the store populated by
an empty fallback record set.  The code does the opposite: _fetch_from_api
catches the RequestException itself and hands None back, and load_data then
returns False, leaving the store exactly as it was, with no fallback record
set; the fallback branch is unreachable for network failures. -/
theorem c1_load_network_failure_returns_false :
    loadData initState (some "BROOKLYN") 1000 none =
      { success := false, state := initState, didFetch := true } := by
  decide

/-- Metrics of the empty subset evaluate to the optimistic defaults. -/
theorem calculateSafetyMetrics_nil :
    calculateSafetyMetrics [] =
      { total_complaints := 0, weighted_safety_score := 5, complaints_per_day := 0,
        high_concern_ratio := 0, category_distribution := [] } := rfl

/-- Rating the optimistic default metrics yields score 5 and grade A. -/
theorem generateSafetyRating_optimistic :
    generateSafetyRating
      { total_complaints := 0, weighted_safety_score := 5, complaints_per_day := 0,
        high_concern_ratio := 0, category_distribution := [] } =
      { score := 5, grade := "A", description := "Very Safe", color := "green" } := by
  have h5 : roundTo 2 (5 : ℚ) = 5 := roundTo_eq_self 2 5 500 (by norm_num)
  norm_num [generateSafetyRating, clampedScore, adjustedScore, max_def, min_def, h5]

/-- Claim C6. For the empty incident subset the metrics report zero
complaints and a weighted safety score of exactly 5.0, and rating those
metrics yields score 5.0 with grade A. -/
theorem c6_empty_subset_optimistic_default :
    (calculateSafetyMetrics []).total_complaints = 0 ∧
    (calculateSafetyMetrics []).weighted_safety_score = 5 ∧
    (generateSafetyRating (calculateSafetyMetrics [])).score = 5 ∧
    (generateSafetyRating (calculateSafetyMetrics [])).grade = "A" := by
  rw [calculateSafetyMetrics_nil, generateSafetyRating_optimistic]
  exact ⟨rfl, rfl, rfl, rfl⟩

/-- Cleaning the Assault example record assigns HIGH_CONCERN and weight 3. -/
theorem cleanRecord_assaultRaw :
    cleanRecord assaultRaw =
      { complaint_type := some "Assault", created_date := 0, incident_zip := "10001",
        borough := "MANHATTAN", latitude := none, longitude := none,
        safety_category := "HIGH_CONCERN", safety_weight := 3 } := rfl

/-- Cleaning the Noise example record assigns LOW_CONCERN and weight 1. -/
theorem cleanRecord_noiseRaw :
    cleanRecord noiseRaw =
      { complaint_type := some "Noise", created_date := 0, incident_zip := "10001",
        borough := "MANHATTAN", latitude := none, longitude := none,
        safety_category := "LOW_CONCERN", safety_weight := 1 } := rfl

/-- Metrics of the Assault-plus-Noise pair evaluate to base score 2, two
complaints per day, and high-concern ratio one half. -/
theorem calculateSafetyMetrics_pairData :
    calculateSafetyMetrics pairData =
      { total_complaints := 2, weighted_safety_score := 2, complaints_per_day := 2,
        high_concern_ratio := 1/2,
        category_distribution := [("HIGH_CONCERN", 1/2), ("LOW_CONCERN", 1/2)] } := by
  have h2 : roundTo 2 (2 : ℚ) = 2 := roundTo_eq_self 2 2 200 (by norm_num)
  have h3 : roundTo 3 (2 : ℚ) = 2 := roundTo_eq_self 3 2 2000 (by norm_num)
  have hh : roundTo 3 ((1 : ℚ)/2) = 1/2 := roundTo_eq_self 3 _ 500 (by norm_num)
  simp [calculateSafetyMetrics, pairData, cleanRecord_assaultRaw, cleanRecord_noiseRaw,
    List.dedup_cons_of_not_mem, List.dedup_cons_of_mem]
  norm_num [max_def, min_def, h2, h3, hh]

/-- Rating the pair metrics: the high-concern adjustment takes the score to
1.0 after subtracting 1.0 (and the activity adjustment a further 0.25, which
the clamp absorbs), giving grade F. -/
theorem generateSafetyRating_pairData :
    generateSafetyRating (calculateSafetyMetrics pairData) =
      { score := 1, grade := "F", description := "Significant Safety Concerns",
        color := "red" } := by
  rw [calculateSafetyMetrics_pairData]
  have h1 : roundTo 2 (1 : ℚ) = 1 := roundTo_eq_self 2 1 100 (by norm_num)
  norm_num [generateSafetyRating, clampedScore, adjustedScore, max_def, min_def, h1]

/-- Claim C7. On the two-incident subset Assault plus Noise with one shared
creation day, classification gives HIGH_CONCERN and LOW_CONCERN, the mean
weight is (3 + 1) / 2 = 2, the rescaled base score stored in the metrics is
5 - 2 * 1.5 = 2, the high-concern ratio is 0.5 and exceeds the 0.2 cutoff
that subtracts 1.0, and the final rating is score 1.0 with grade F. -/
theorem c7_assault_noise_worked_example :
    (cleanRecord assaultRaw).safety_category = "HIGH_CONCERN" ∧
    (cleanRecord noiseRaw).safety_category = "LOW_CONCERN" ∧
    ((cleanRecord assaultRaw).safety_weight + (cleanRecord noiseRaw).safety_weight) / 2 = 2 ∧
    (calculateSafetyMetrics pairData).weighted_safety_score = 2 ∧
    (calculateSafetyMetrics pairData).high_concern_ratio = 1/2 ∧
    (calculateSafetyMetrics pairData).high_concern_ratio > 1/5 ∧
    (generateSafetyRating (calculateSafetyMetrics pairData)).score = 1 ∧
    (generateSafetyRating (calculateSafetyMetrics pairData)).grade = "F" := by
  rw [cleanRecord_assaultRaw, cleanRecord_noiseRaw, generateSafetyRating_pairData,
    calculateSafetyMetrics_pairData]
  refine ⟨rfl, rfl, by norm_num, rfl, rfl, by norm_num, rfl, rfl⟩

/-- The classifier is the first-match cascade over the four type lists in
priority order. -/
theorem categorizeComplaint_eq_cascade (s : String) :
    categorizeComplaint (some s) =
      (if s ∈ highConcernTypes then "HIGH_CONCERN"
       else if s ∈ mediumConcernTypes then "MEDIUM_CONCERN"
       else if s ∈ lowConcernTypes then "LOW_CONCERN"
       else "INFRASTRUCTURE") := by
  simp only [categorizeComplaint, safetyCategories, List.find?]
  by_cases h1 : s ∈ highConcernTypes
  · simp [h1]
  · by_cases h2 : s ∈ mediumConcernTypes
    · simp [h1, h2]
    · by_cases h3 : s ∈ lowConcernTypes
      · simp [h1, h2, h3]
      · by_cases h4 : s ∈ infrastructureTypes
        · simp [h1, h2, h3, h4]
        · simp [h1, h2, h3, h4]

/-- Claim C3. The classifier is pure and total: a missing input and the
empty string resolve to INFRASTRUCTURE, an input found in the HIGH_CONCERN
list resolves to HIGH_CONCERN regardless of the later lists, the remaining
lists are consulted in priority order with first match winning, anything
unmatched resolves to INFRASTRUCTURE, and every output is one of the four
category names. -/
theorem c3_classifier_total_first_match (s : String) :
    categorizeComplaint none = "INFRASTRUCTURE" ∧
    categorizeComplaint (some "") = "INFRASTRUCTURE" ∧
    (s ∈ highConcernTypes → categorizeComplaint (some s) = "HIGH_CONCERN") ∧
    (s ∉ highConcernTypes → s ∈ mediumConcernTypes →
      categorizeComplaint (some s) = "MEDIUM_CONCERN") ∧
    (s ∉ highConcernTypes → s ∉ mediumConcernTypes → s ∈ lowConcernTypes →
      categorizeComplaint (some s) = "LOW_CONCERN") ∧
    (s ∉ highConcernTypes → s ∉ mediumConcernTypes → s ∉ lowConcernTypes →
      categorizeComplaint (some s) = "INFRASTRUCTURE") ∧
    categorizeComplaint (some s) ∈
      ["HIGH_CONCERN", "MEDIUM_CONCERN", "LOW_CONCERN", "INFRASTRUCTURE"] := by
  refine ⟨rfl, by decide, ?_, ?_, ?_, ?_, ?_⟩
  · intro h1
    rw [categorizeComplaint_eq_cascade]
    simp [h1]
  · intro h1 h2
    rw [categorizeComplaint_eq_cascade]
    simp [h1, h2]
  · intro h1 h2 h3
    rw [categorizeComplaint_eq_cascade]
    simp [h1, h2, h3]
  · intro h1 h2 h3
    rw [categorizeComplaint_eq_cascade]
    simp [h1, h2, h3]
  · rw [categorizeComplaint_eq_cascade]
    split_ifs <;> simp

/-- Witness for claim C3 at the concrete input Assault, which the
HIGH_CONCERN list contains. -/
theorem c3_witness :
    "Assault" ∈ highConcernTypes ∧
    categorizeComplaint (some "Assault") = "HIGH_CONCERN" :=
  ⟨by decide, (c3_classifier_total_first_match "Assault").2.2.1 (by decide)⟩

/-- The two rating adjustments subtract a multiple of one quarter, so a
weighted score on the hundredths grid stays on the hundredths grid. -/
theorem adjustedScore_cent (m : SafetyMetrics) (k : ℤ)
    (hk : m.weighted_safety_score = (k : ℚ) / 100) :
    ∃ j : ℤ, adjustedScore m = (j : ℚ) / 100 := by
  unfold adjustedScore
  rw [hk]
  split_ifs
  exacts [⟨k - 150, by push_cast; ring⟩, ⟨k - 125, by push_cast; ring⟩,
    ⟨k - 100, by push_cast; ring⟩, ⟨k - 100, by push_cast; ring⟩,
    ⟨k - 75, by push_cast; ring⟩, ⟨k - 50, by push_cast; ring⟩,
    ⟨k - 50, by push_cast; ring⟩, ⟨k - 25, by push_cast; ring⟩,
    ⟨k, by push_cast; ring⟩]

/-- The clamp of the adjusted score lands on the hundredths grid between
1.00 and 5.00 whenever the weighted score sits on that grid. -/
theorem clampedScore_cent (m : SafetyMetrics) (k : ℤ)
    (hk : m.weighted_safety_score = (k : ℚ) / 100) :
    ∃ j : ℤ, clampedScore m = (j : ℚ) / 100 ∧ 100 ≤ j ∧ j ≤ 500 := by
  obtain ⟨j0, hj0⟩ := adjustedScore_cent m k hk
  refine ⟨max 100 (min 500 j0), ?_, le_max_left _ _,
    max_le (by norm_num) (min_le_left _ _)⟩
  unfold clampedScore
  rw [hj0, show (1 : ℚ) = 100/100 by norm_num, show (5 : ℚ) = 500/100 by norm_num,
    min_div_div_right (by norm_num : (0:ℚ) ≤ 100),
    max_div_div_right (by norm_num : (0:ℚ) ≤ 100)]
  push_cast
  ring

/-- Rounding to two decimals keeps a value of [1, 5] inside [1, 5]. -/
theorem roundTo_two_bounds (c : ℚ) (h1 : 1 ≤ c) (h5 : c ≤ 5) :
    1 ≤ roundTo 2 c ∧ roundTo 2 c ≤ 5 := by
  unfold roundTo
  have h100 : (10 : ℚ) ^ (2 : ℕ) = 100 := by norm_num
  rw [h100]
  have hlo : (100 : ℤ) ≤ round (c * 100) := by
    rw [round_eq]
    exact Int.le_floor.mpr (by push_cast; linarith)
  have hhi : round (c * 100) ≤ 500 := by
    rw [round_eq]
    have hfl : ⌊c * 100 + 1/2⌋ < 501 := Int.floor_lt.mpr (by push_cast; linarith)
    omega
  constructor
  · rw [le_div_iff₀ (by norm_num : (0:ℚ) < 100)]
    have hcast : (100 : ℚ) ≤ ((round (c * 100) : ℤ) : ℚ) := by exact_mod_cast hlo
    linarith
  · rw [div_le_iff₀ (by norm_num : (0:ℚ) < 100)]
    have hcast : ((round (c * 100) : ℤ) : ℚ) ≤ 500 := by exact_mod_cast hhi
    linarith

/-- Claim C2. For every metrics input the rating score lies in [1.0, 5.0];
and whenever the weighted score lies on the hundredths grid (as every value
produced by the metrics computation does, being rounded to two decimals) the
letter grade agrees with the documented threshold mapping applied to the
reported score. -/
theorem c2_rating_bounds_and_grade (m : SafetyMetrics) :
    1 ≤ (generateSafetyRating m).score ∧ (generateSafetyRating m).score ≤ 5 ∧
    ((∃ k : ℤ, m.weighted_safety_score = (k : ℚ) / 100) →
      (generateSafetyRating m).grade = scoreToGrade ((generateSafetyRating m).score)) := by
  have hb := roundTo_two_bounds (clampedScore m) (le_max_left 1 _)
    (max_le (by norm_num) (min_le_left _ _))
  have hscdef : (generateSafetyRating m).score = roundTo 2 (clampedScore m) := rfl
  refine ⟨by rw [hscdef]; exact hb.1, by rw [hscdef]; exact hb.2, ?_⟩
  rintro ⟨k, hk⟩
  obtain ⟨j, hj, hlo, hhi⟩ := clampedScore_cent m k hk
  have hsc : (generateSafetyRating m).score = clampedScore m := by
    rw [hscdef, hj]
    exact roundTo_two_cent j
  have hg : (generateSafetyRating m).grade = scoreToGrade (clampedScore m) := rfl
  rw [hg, hsc]

/-- Witness for claim C2 at concrete metrics with weighted score 4.00. -/
theorem c2_witness :
    (∃ k : ℤ, metricsEx.weighted_safety_score = (k : ℚ) / 100) ∧
    (1 ≤ (generateSafetyRating metricsEx).score ∧
      (generateSafetyRating metricsEx).score ≤ 5 ∧
      (generateSafetyRating metricsEx).grade =
        scoreToGrade ((generateSafetyRating metricsEx).score)) :=
  ⟨⟨400, by norm_num [metricsEx]⟩,
    ⟨(c2_rating_bounds_and_grade metricsEx).1,
      (c2_rating_bounds_and_grade metricsEx).2.1,
      (c2_rating_bounds_and_grade metricsEx).2.2 ⟨400, by norm_num [metricsEx]⟩⟩⟩

/-- Claim C4. A cache entry is valid exactly when a cached payload and
timestamp exist, the age is strictly below the one-hour TTL, and the
requested scope equals the cached scope; a valid cache makes load reuse the
cached payload with no fetch, whatever the network would have answered, and
an invalid cache always forces a fetch. -/
theorem c4_cache_validity_and_reuse (st : StoreState) (borough : Option String)
    (now : ℚ) (fetchResult : Option (List RawIncident)) :
    (isCacheValid st borough now = true ↔
      ∃ payload ts, st.data_cache = some payload ∧ st.cache_timestamp = some ts ∧
        now - ts < cacheDuration ∧ borough = st.cached_borough) ∧
    (isCacheValid st borough now = true →
      loadData st borough now fetchResult =
        { success := true, state := { st with crime_data := st.data_cache },
          didFetch := false }) ∧
    (isCacheValid st borough now = false →
      (loadData st borough now fetchResult).didFetch = true) := by
  refine ⟨?_, ?_, ?_⟩
  · constructor
    · intro h
      rcases hdc : st.data_cache with _ | payload
      · simp [isCacheValid, hdc] at h
      · rcases hts : st.cache_timestamp with _ | ts
        · simp [isCacheValid, hdc, hts] at h
        · simp only [isCacheValid, hdc, hts] at h
          split_ifs at h with h1 h2
          exact ⟨payload, ts, rfl, rfl, not_le.mp h1, not_ne_iff.mp h2⟩
    · rintro ⟨payload, ts, hp, ht, hlt, heq⟩
      simp only [isCacheValid, hp, ht]
      rw [if_neg (not_le.mpr hlt), if_neg (not_ne_iff.mpr heq)]
  · intro h
    unfold loadData
    rw [if_pos h]
  · intro h
    unfold loadData
    rw [if_neg (by rw [h]; exact Bool.false_ne_true)]
    rcases fetchResult with _ | raw
    · rfl
    · by_cases hr : raw.isEmpty <;> simp [hr]

/-- Witness for claim C4: a state caching the BROOKLYN payload 100 seconds
ago is valid for BROOKLYN, and load reuses it without fetching. -/
theorem c4_witness :
    isCacheValid stEx (some "BROOKLYN") 200 = true ∧
    loadData stEx (some "BROOKLYN") 200 none =
      { success := true, state := { stEx with crime_data := stEx.data_cache },
        didFetch := false } := by
  have hv : isCacheValid stEx (some "BROOKLYN") 200 = true := by
    rw [(c4_cache_validity_and_reuse stEx (some "BROOKLYN") 200 none).1]
    exact ⟨pairData, 100, rfl, rfl, by norm_num [cacheDuration], rfl⟩
  exact ⟨hv, (c4_cache_validity_and_reuse stEx (some "BROOKLYN") 200 none).2.1 hv⟩

/-- Membership in the radius mode of the area filter: exactly the input
records carrying both coordinates whose distance to the query point is
within the radius. -/
theorem filterAreaData_radius_mem (dist : ℚ → ℚ → ℚ → ℚ → ℚ)
    (crimeData : List IncidentRecord) (zip borough : Option String)
    (lat lon radiusMiles : ℚ) (r : IncidentRecord) :
    r ∈ filterAreaData crimeData zip borough (some (lat, lon)) dist radiusMiles ↔
      r ∈ crimeData ∧ ∃ rlat rlon, r.latitude = some rlat ∧ r.longitude = some rlon ∧
        dist lat lon rlat rlon ≤ radiusMiles := by
  unfold filterAreaData
  rw [List.mem_filter]
  rcases hlat : r.latitude with _ | rlat <;> rcases hlon : r.longitude with _ | rlon <;>
    simp [hlat, hlon]

/-- Claim C5. In radius mode the area filter keeps exactly the records whose
distance to the geocoded query point is at most the radius, dropping every
record lacking coordinates, and enlarging the radius never drops a
previously kept record. -/
theorem c5_radius_filter_exact_and_monotone (dist : ℚ → ℚ → ℚ → ℚ → ℚ)
    (crimeData : List IncidentRecord) (zip borough : Option String)
    (lat lon radiusMiles : ℚ) (r : IncidentRecord) :
    (r ∈ filterAreaData crimeData zip borough (some (lat, lon)) dist radiusMiles ↔
      r ∈ crimeData ∧ ∃ rlat rlon, r.latitude = some rlat ∧ r.longitude = some rlon ∧
        dist lat lon rlat rlon ≤ radiusMiles) ∧
    (∀ radius2 : ℚ, radiusMiles ≤ radius2 →
      r ∈ filterAreaData crimeData zip borough (some (lat, lon)) dist radiusMiles →
      r ∈ filterAreaData crimeData zip borough (some (lat, lon)) dist radius2) := by
  refine ⟨filterAreaData_radius_mem dist crimeData zip borough lat lon radiusMiles r,
    fun radius2 h12 hr => ?_⟩
  obtain ⟨hmem, rlat, rlon, h1, h2, h3⟩ :=
    (filterAreaData_radius_mem dist crimeData zip borough lat lon radiusMiles r).mp hr
  exact (filterAreaData_radius_mem dist crimeData zip borough lat lon radius2 r).mpr
    ⟨hmem, rlat, rlon, h1, h2, h3.trans h12⟩

/-- Witness for claim C5: with a constant unit distance the example record is
kept at radius 1, and monotonicity keeps it at radius 2. -/
theorem c5_witness :
    (1 : ℚ) ≤ 2 ∧
    recEx ∈ filterAreaData [recEx] none none (some (0, 0)) distEx 2 := by
  refine ⟨by norm_num, ?_⟩
  have h1 : recEx ∈ filterAreaData [recEx] none none (some (0, 0)) distEx 1 := by
    simp [filterAreaData, recEx, distEx]
  exact (c5_radius_filter_exact_and_monotone distEx [recEx] none none 0 0 1 recEx).2
    2 (by norm_num) h1

/-- Claim C8. The recent-activity output reports exactly the counts of the
two adjacent time windows, and its trend label is stable whenever the
previous count is zero regardless of the recent count, increasing when the
recent count exceeds 1.2 times the previous, decreasing when it is below 0.8
times the previous, and stable otherwise. -/
theorem c8_trend_label (areaData : List IncidentRecord) (now days : ℤ) :
    (getRecentActivity areaData now days).recent_complaints =
      (areaData.filter (fun r => decide (now - days ≤ r.created_date))).length ∧
    (getRecentActivity areaData now days).previous_period_complaints =
      (areaData.filter (fun r =>
        decide (now - days - days ≤ r.created_date ∧ r.created_date < now - days))).length ∧
    (getRecentActivity areaData now days).trend =
      (if (getRecentActivity areaData now days).previous_period_complaints = 0 then "stable"
       else if ((getRecentActivity areaData now days).recent_complaints : ℚ) >
           ((getRecentActivity areaData now days).previous_period_complaints : ℚ) * (6/5)
         then "increasing"
       else if ((getRecentActivity areaData now days).recent_complaints : ℚ) <
           ((getRecentActivity areaData now days).previous_period_complaints : ℚ) * (4/5)
         then "decreasing"
       else "stable") := by
  by_cases hemp : areaData.isEmpty
  · rw [List.isEmpty_iff] at hemp
    subst hemp
    simp [getRecentActivity]
  · simp only [getRecentActivity, hemp, Bool.false_eq_true, if_false]
    exact ⟨trivial, trivial, trivial⟩

/-- Claim C10. When the filtered area subset is empty but the loaded store is
not, the area rating is the fixed Insufficient Data default with score 3.0,
grade C, and zero total complaints, not the optimistic empty-subset scorer
result. -/
theorem c10_default_rating_on_empty_subset (crimeData : List IncidentRecord)
    (zip borough : Option String) (geocoded : Option (ℚ × ℚ))
    (dist : ℚ → ℚ → ℚ → ℚ → ℚ) (radiusMiles : ℚ)
    (hEmpty : filterAreaData crimeData zip borough geocoded dist radiusMiles = [])
    (hData : crimeData ≠ []) :
    getAreaSafetyRating crimeData zip borough geocoded dist radiusMiles =
      createDefaultRating "No crime data available for this area" ∧
    (getAreaSafetyRating crimeData zip borough geocoded dist radiusMiles).safety_rating.score
      = 3 ∧
    (getAreaSafetyRating crimeData zip borough geocoded dist radiusMiles).safety_rating.grade
      = "C" ∧
    (getAreaSafetyRating crimeData zip borough geocoded dist
      radiusMiles).safety_rating.description = "Insufficient Data" ∧
    (getAreaSafetyRating crimeData zip borough geocoded dist
      radiusMiles).safety_metrics.total_complaints = 0 := by
  have hmain : getAreaSafetyRating crimeData zip borough geocoded dist radiusMiles =
      createDefaultRating "No crime data available for this area" := by
    unfold getAreaSafetyRating
    rw [hEmpty]
    simp [List.isEmpty_iff, hData]
  rw [hmain]
  exact ⟨rfl, rfl, rfl, rfl, rfl⟩

/-- Witness for claim C10: a one-record store filtered by a zip code that
matches nothing yields the Insufficient Data default. -/
theorem c10_witness :
    filterAreaData dataEx (some "99999") none none distEx (1/2) = [] ∧
    dataEx ≠ [] ∧
    getAreaSafetyRating dataEx (some "99999") none none distEx (1/2) =
      createDefaultRating "No crime data available for this area" := by
  have h1 : filterAreaData dataEx (some "99999") none none distEx (1/2) = [] := by
    simp [filterAreaData, dataEx, cleanRecord_assaultRaw]
  have h2 : dataEx ≠ [] := by simp [dataEx]
  exact ⟨h1, h2,
    (c10_default_rating_on_empty_subset dataEx (some "99999") none none distEx (1/2)
      h1 h2).1⟩

/-- Every member of the categorizer output is the safest copy, the fastest
copy (emitted only under a distinct identity), or carries the balanced
label. -/
theorem categorizeAndSortRoutes_mem_cases (routes : List RouteCandidate)
    (x : RouteCandidate) (hx : x ∈ categorizeAndSortRoutes routes) :
    (∃ s rs, routes.insertionSort safetyDesc = s :: rs ∧
      x = { s with route_type := "safest" }) ∨
    (∃ s rs f rd, routes.insertionSort safetyDesc = s :: rs ∧
      routes.insertionSort durationAsc = f :: rd ∧ f.route_id ≠ s.route_id ∧
      x = { f with route_type := "fastest" }) ∨
    x.route_type = "balanced" := by
  rcases h1 : routes.insertionSort safetyDesc with _ | ⟨safest, restS⟩
  · simp [categorizeAndSortRoutes, h1] at hx
  · rcases h2 : routes.insertionSort durationAsc with _ | ⟨fastest, restD⟩
    · simp [categorizeAndSortRoutes, h1, h2] at hx
    · simp only [categorizeAndSortRoutes, h1, h2] at hx
      by_cases hid : fastest.route_id ≠ safest.route_id
      · rw [if_pos hid] at hx
        by_cases hlen : 3 ≤ routes.length
        · rw [if_pos hlen] at hx
          rcases hf : routes.find? (fun r =>
              decide (r.route_id ≠ safest.route_id ∧ r.route_id ≠ fastest.route_id))
            with _ | b0 <;> rw [hf] at hx <;> simp at hx
          · rcases hx with hx | hx
            · exact Or.inl ⟨safest, restS, rfl, hx⟩
            · exact Or.inr (Or.inl ⟨safest, restS, fastest, restD, rfl, rfl, hid, hx⟩)
          · rcases hx with hx | hx | hx
            · exact Or.inl ⟨safest, restS, rfl, hx⟩
            · exact Or.inr (Or.inl ⟨safest, restS, fastest, restD, rfl, rfl, hid, hx⟩)
            · exact Or.inr (Or.inr (by simp [hx]))
        · rw [if_neg hlen] at hx
          simp at hx
          rcases hx with hx | hx
          · exact Or.inl ⟨safest, restS, rfl, hx⟩
          · exact Or.inr (Or.inl ⟨safest, restS, fastest, restD, rfl, rfl, hid, hx⟩)
      · rw [if_neg hid] at hx
        by_cases hlen : 3 ≤ routes.length
        · rw [if_pos hlen] at hx
          rcases hf : routes.find? (fun r =>
              decide (r.route_id ≠ safest.route_id ∧ r.route_id ≠ fastest.route_id))
            with _ | b0 <;> rw [hf] at hx <;> simp at hx
          · exact Or.inl ⟨safest, restS, rfl, hx⟩
          · rcases hx with hx | hx
            · exact Or.inl ⟨safest, restS, rfl, hx⟩
            · exact Or.inr (Or.inr (by simp [hx]))
        · rw [if_neg hlen] at hx
          simp at hx
          exact Or.inl ⟨safest, restS, rfl, hx⟩

/-- Claim C9. The categorizer never assigns the same route identity both the
safest and the fastest label: any output member labelled safest and any
output member labelled fastest carry distinct route identities, because the
fastest copy is emitted only when the minimum-duration head differs in
identity from the maximum-safety head. -/
theorem c9_safest_fastest_identities_distinct (routes : List RouteCandidate)
    (a b : RouteCandidate)
    (ha : a ∈ categorizeAndSortRoutes routes)
    (hb : b ∈ categorizeAndSortRoutes routes)
    (hta : a.route_type = "safest") (htb : b.route_type = "fastest") :
    a.route_id ≠ b.route_id := by
  rcases categorizeAndSortRoutes_mem_cases routes a ha with
    ⟨s, rs, hs, hae⟩ | ⟨s, rs, f, rd, hs, hd, hne, hae⟩ | hbal
  · rcases categorizeAndSortRoutes_mem_cases routes b hb with
      ⟨s2, rs2, hs2, hbe⟩ | ⟨s2, rs2, f2, rd2, hs2, hd2, hne2, hbe⟩ | hbal2
    · rw [hbe] at htb
      simp at htb
    · have hcons : s :: rs = s2 :: rs2 := hs.symm.trans hs2
      injection hcons with hss hrr
      rw [hae, hbe]
      show s.route_id ≠ f2.route_id
      rw [hss]
      exact Ne.symm hne2
    · rw [htb] at hbal2
      simp at hbal2
  · rw [hae] at hta
    simp at hta
  · rw [hta] at hbal
    simp at hbal

/-- Witness for claim C9 on two concrete routes where the faster one is less
safe: the emitted safest and fastest copies carry distinct identities. -/
theorem c9_witness :
    ({ rEx0 with route_type := "safest" } : RouteCandidate).route_id ≠
      ({ rEx1 with route_type := "fastest" } : RouteCandidate).route_id :=
  c9_safest_fastest_identities_distinct [rEx0, rEx1] _ _
    (by decide) (by decide) rfl rfl

end WattsUp
